import Mathlib

set_option maxRecDepth 20000

/-!
Shallow embedding of the response-normalization / deduplication pipeline of
the Azure-TestCases-Generator backend (src/app.py, src/app_api.py).

Modelling conventions, fixed throughout this file:
* Python strings are Lean `String`s (sequences of Unicode scalar values);
  `len`, slicing and iteration count code points, as in Python.
* `str.split()` / `str.strip()` use the Python whitespace set, embedded in
  `isPyWs` (the Unicode characters Python treats as whitespace).
* `str.lower()` is embedded as ASCII lowercasing (`asciiLower`); every
  character this development evaluates it on is either ASCII or fixed by
  Unicode lowercasing, so the embedding agrees with Python there.
* `unicodedata.normalize("NFKD", _)` is embedded per the Unicode character
  database restricted to the characters appearing in this development:
  ASCII characters have no decomposition, and U+2026 HORIZONTAL ELLIPSIS
  has compatibility decomposition "...".  All other characters are mapped
  to themselves.
* `unicodedata.category(ch).startswith("C")` is embedded as `isCatC`
  (the Cc ranges U+0000-U+001F and U+007F-U+009F plus the Cf character
  U+00AD); this is exact on every character reachable in this development.
* `json.loads` / `json.dumps` are embedded by `jsonLoads` / `jsonDumps`
  over the value type `JVal`.  Numbers are modelled as integers (no float
  literal in this development); everything else (strings with escapes,
  arrays, objects in insertion order, booleans, null, strictness about
  raw control characters and trailing garbage) follows the library.
-/

/-- The characters Python `str.split()` / `str.strip()` treat as whitespace. -/
def isPyWs (c : Char) : Bool :=
  let n := c.toNat
  (9 ≤ n && n ≤ 13) || n = 32 || (28 ≤ n && n ≤ 31) || n = 0x85 || n = 0xa0 ||
  n = 0x1680 || (0x2000 ≤ n && n ≤ 0x200a) || n = 0x2028 || n = 0x2029 ||
  n = 0x202f || n = 0x205f || n = 0x3000

/-- ASCII lowercasing, the fragment of Python `str.lower()` used here. -/
def asciiLower (c : Char) : Char :=
  if 'A' ≤ c ∧ c ≤ 'Z' then Char.ofNat (c.toNat + 32) else c

/-- Map `asciiLower` over a string. -/
def lowerStr (s : String) : String :=
  ⟨s.data.map asciiLower⟩

/-- Drop leading and trailing Python whitespace from a character list. -/
def stripChars (l : List Char) : List Char :=
  ((l.dropWhile isPyWs).reverse.dropWhile isPyWs).reverse

/-- Python `str.strip()`. -/
def pyStrip (s : String) : String :=
  ⟨stripChars s.data⟩

/-- The single-quote character, kept out of string literals. -/
def sqc : Char := Char.ofNat 39

/-- `string.punctuation`: the 32 ASCII punctuation characters. -/
def pyPunct : List Char :=
  ['!', '"', '#', '$', '%', '&', sqc, '(', ')', '*', '+', ',', '-', '.', '/',
   ':', ';', '<', '=', '>', '?', '@', '[', '\\', ']', '^', '_', '`',
   '\x7b', '|', '\x7d', '~']

/-- NFKD decomposition restricted to the characters reachable here:
ASCII characters decompose to themselves (the UCD assigns them no
decomposition) and U+2026 HORIZONTAL ELLIPSIS decomposes to `...`.
Other characters are mapped to themselves. -/
def nfkdChar (c : Char) : List Char :=
  if c = '…' then ['.', '.', '.'] else [c]

/-- Unicode general category `C*` membership, restricted as documented:
Cc is U+0000-U+001F and U+007F-U+009F, and U+00AD is Cf. -/
def isCatC (c : Char) : Bool :=
  let n := c.toNat
  n ≤ 0x1f || (0x7f ≤ n && n ≤ 0x9f) || n = 0xad

/-- The character-level body of `normalize_title`: remove all whitespace,
lowercase, strip punctuation, NFKD-normalize, remove category-C characters. -/
def normChars (l : List Char) : List Char :=
  ((((l.filter (fun c => !isPyWs c)).map asciiLower).filter
    (fun c => !pyPunct.contains c)).flatMap nfkdChar).filter (fun c => !isCatC c)

/-- `normalize_title` (src/app.py lines 1239-1245). -/
def normalize_title (title : String) : String :=
  ⟨normChars title.data⟩

example : normalize_title "Verify User logs in" = "verifyuserlogsin" := by decide

example : normalize_title "…" = "..." := by decide

example : normalize_title "..." = "" := by decide

/-! ## Test-case records and the upload deduplication stage -/

/-- A test case's `description` field: either an ordered list of step strings
or a single free-text string (the two shapes the data model allows and the
code distinguishes with `isinstance`). -/
inductive Descr where
  | ofList (steps : List String)
  | ofStr (text : String)
  deriving DecidableEq, Repr

/-- One test-case record with the fields the pipeline reads
(id, title, priority, description, expectedResult). -/
structure TestCase where
  id : String
  title : String
  priority : String
  description : Descr
  expectedResult : String
  deriving DecidableEq, Repr

/-- Python `s.split("\n")` on character lists: always non-empty, keeps
empty segments. -/
def splitOnNl : List Char → List (List Char)
  | [] => [[]]
  | c :: rest =>
    let r := splitOnNl rest
    if c = '\n' then [] :: r
    else
      match r with
      | x :: xs => (c :: x) :: xs
      | [] => [[c]]

/-- First line of a string, as Python `s.split("\n")[0]`. -/
def firstLineOf (s : String) : String :=
  match splitOnNl s.data with
  | x :: _ => ⟨x⟩
  | [] => ""

/-- `re.sub(r"^\s*\d+\.\s*", "", s)`: remove one leading "N." numeral
(with surrounding whitespace) if the anchored pattern matches, else return
the string unchanged.  The pattern needs at least one digit followed by a
literal dot; `\d` is modelled as the ASCII digits (every input evaluated
here is ASCII). -/
def stripNum (s : String) : String :=
  let l := s.data
  let l1 := l.dropWhile isPyWs
  let ds := l1.takeWhile Char.isDigit
  if ds = [] then s
  else
    match l1.drop ds.length with
    | '.' :: rest => ⟨rest.dropWhile isPyWs⟩
    | _ => s

/-- The four category tags of the title-prefix pattern
`^\s*\[(Positive|Negative|Edge Case|Data Flow)\]\s*`, lowercased and
including the square brackets. -/
def categoryTags : List (List Char) :=
  ["[positive]".data, "[negative]".data, "[edge case]".data, "[data flow]".data]

/-- `re.sub(prefix_pattern, "", title, flags=re.IGNORECASE).strip()`
(src/app.py lines 1117-1118): drop one leading category-bracket tag with its
surrounding whitespace if present, then strip. -/
def stripTypeTag (title : String) : String :=
  let l := title.data.dropWhile isPyWs
  let low := l.map asciiLower
  match categoryTags.find? (fun t => t.isPrefixOf low) with
  | some t => pyStrip ⟨(l.drop t.length).dropWhile isPyWs⟩
  | none => pyStrip title

/-- The title-derivation fallback of the upload dedup loop
(src/app.py lines 1119-1134), used when the provider title is blank after
the category tag is removed: (a) first non-blank entry of a list-typed
description with any leading numeral stripped, (b) first line of a
string-typed description similarly stripped, (c) `"Test for: "` plus the
expected result, (d) `"Untitled Test Case"`. -/
def derivedBase : Descr → String
  | .ofList ss =>
    match ss.find? (fun s => pyStrip s ≠ "") with
    | some firstStep => pyStrip (stripNum (pyStrip firstStep))
    | none => ""
  | .ofStr s =>
    if pyStrip s ≠ "" then
      pyStrip (stripNum (pyStrip (firstLineOf (pyStrip s))))
    else ""

/-- Steps (c) and (d) of the fallback on top of the (a)/(b) base. -/
def deriveFallbackTitle (d : Descr) (expectedResult : String) : String :=
  let base := derivedBase d
  let base2 :=
    if base = "" ∧ pyStrip expectedResult ≠ "" then
      "Test for: " ++ pyStrip expectedResult
    else base
  if base2 = "" then "Untitled Test Case" else base2

/-- `title_without_prefix` of the dedup loop: the stripped provider title
without its category tag, or the derived fallback title when blank. -/
def titleNoTag (tc : TestCase) : String :=
  let t := stripTypeTag (pyStrip tc.title)
  if t = "" then deriveFallbackTitle tc.description tc.expectedResult else t

/-- `final_title` of the dedup loop (src/app.py lines 1135-1140): truncate
to 120 characters appending `...`, then prepend `"Verify "` unless the
lowercased title already starts with `verify`. -/
def finalTitle (tc : TestCase) : String :=
  let base := titleNoTag tc
  let tb := if base.data.length > 120 then (⟨base.data.take 120⟩ : String) ++ "..." else base
  if "verify".data.isPrefixOf (lowerStr tb).data then tb else "Verify " ++ tb

/-- The dedup fold of `upload_test_cases` (src/app.py lines 1111-1146):
accept a case when its normalized final title is non-empty and unseen,
rewriting the title in place; `seen` models the `seen_titles` set. -/
def dedupAux : List TestCase → List String → List TestCase
  | [], _ => []
  | tc :: rest, seen =>
    let ft := finalTitle tc
    let k := normalize_title ft
    if k ≠ "" ∧ k ∉ seen then
      { tc with title := ft } :: dedupAux rest (k :: seen)
    else
      dedupAux rest seen

/-- `unique_test_cases`: the accepted, title-rewritten cases of one upload
run, in input order. -/
def uniqueTestCases (tcs : List TestCase) : List TestCase :=
  dedupAux tcs []

example :
    uniqueTestCases
      [⟨"TC-POS-1", "[Positive] User logs in", "High", .ofStr "", ""⟩,
       ⟨"TC-POS-2", "User logs in", "High", .ofStr "", ""⟩] =
      [⟨"TC-POS-1", "Verify User logs in", "High", .ofStr "", ""⟩] := by decide

/-! ## Steps XML projection of `upload_test_cases` -/

/-- Item loop of the modelled `ast.literal_eval` subset: plain quoted string
items separated by commas, ending at the closing bracket. -/
def litItems : Nat → List Char → Option (List String × List Char)
  | 0, _ => none
  | fuel+1, l =>
    match l.dropWhile isPyWs with
    | [] => none
    | q :: rest =>
      if q = ']' then some ([], rest)
      else if q = '"' ∨ q = sqc then
        let content := rest.takeWhile (fun c => c ≠ q ∧ c ≠ '\\')
        match rest.drop content.length with
        | c :: rest2 =>
          if c = q then
            match rest2.dropWhile isPyWs with
            | ',' :: rest3 => (litItems fuel rest3).map (fun p => ((⟨content⟩ : String) :: p.1, p.2))
            | ']' :: rest3 => some ([⟨content⟩], rest3)
            | _ => none
          else none
        | [] => none
      else none

/-- Modelled subset of `ast.literal_eval` as used on a stripped
bracket-delimited description string: a list literal of plain quoted
strings.  Anything else (escapes, non-string items, trailing text) is a
parse failure, upon which the code falls back to newline splitting. -/
def pyLiteralEvalList (s : String) : Option (List String) :=
  match s.data.dropWhile isPyWs with
  | '[' :: rest =>
    match litItems (rest.length + 1) rest with
    | some (xs, r) => if r.dropWhile isPyWs = [] then some xs else none
    | none => none
  | _ => none

/-- `steps_list` before the final `str`-coercion filter
(src/app.py lines 1170-1180): a list description is used as is; a non-blank
string description is literal-evaluated when bracket-delimited (falling back
to newline splitting), else split on newlines with blank lines dropped. -/
def rawSteps (d : Descr) : List String :=
  match d with
  | .ofList ss => ss
  | .ofStr s =>
    if pyStrip s ≠ "" then
      let st := pyStrip s
      let byLines := ((splitOnNl s.data).map (fun l => pyStrip ⟨l⟩)).filter (fun x => x ≠ "")
      if st.data.head? = some '[' ∧ st.data.getLast? = some ']' then
        match pyLiteralEvalList st with
        | some xs => xs
        | none => byLines
      else byLines
    else []

/-- `steps_list = [str(s) for s in steps_list if s]` (line 1181): drop falsy
(empty) entries. -/
def effectiveSteps (d : Descr) : List String :=
  (rawSteps d).filter (fun s => s ≠ "")

/-- Python `html.escape` with its default quoting: `&`, `<`, `>`, `"` and
the single quote are replaced by entities. -/
def escapeHtmlChar (c : Char) : List Char :=
  if c = '&' then "&amp;".data
  else if c = '<' then "&lt;".data
  else if c = '>' then "&gt;".data
  else if c = '"' then "&quot;".data
  else if c = sqc then "&#x27;".data
  else [c]

/-- `html.escape` on strings. -/
def htmlEscape (s : String) : String :=
  ⟨s.data.flatMap escapeHtmlChar⟩

/-- A one-character string holding the single quote. -/
def sqs : String := ⟨[sqc]⟩

/-- One `<step>` element exactly as the code concatenates it
(src/app.py lines 1187-1206): 1-based id, action text, expected text. -/
def stepXmlElem (i : Nat) (action expected : String) : String :=
  "<step id=" ++ sqs ++ toString i ++ sqs ++ " type=" ++ sqs ++ "ActionStep" ++ sqs ++
  "><parameterizedString isformatted=" ++ sqs ++ "true" ++ sqs ++ ">" ++ action ++
  "</parameterizedString><parameterizedString isformatted=" ++ sqs ++ "true" ++ sqs ++
  ">" ++ expected ++ "</parameterizedString></step>"

/-- `steps_xml_parts` (src/app.py lines 1182-1206): a single synthesized
step when there are no steps but an expected result; otherwise one element
per step, the action with its leading numeral stripped and HTML-escaped,
and only the last element carrying the escaped expected result. -/
def stepsXmlParts (d : Descr) (expectedResult : String) : List String :=
  let es := effectiveSteps d
  if es = [] then
    if expectedResult ≠ "" then
      [stepXmlElem 1 "Execute test steps" (htmlEscape expectedResult)]
    else []
  else
    es.enum.map (fun p =>
      stepXmlElem (p.1 + 1) (htmlEscape (pyStrip (stripNum p.2)))
        (if p.1 + 1 = es.length ∧ expectedResult ≠ "" then htmlEscape expectedResult else ""))

/-- `steps_xml` (line 1207-1208): the wrapper element, or the empty string
when there are no step elements at all. -/
def stepsXml (d : Descr) (expectedResult : String) : String :=
  let parts := stepsXmlParts d expectedResult
  if parts.length > 0 then
    "<steps id=" ++ sqs ++ "0" ++ sqs ++ " last=" ++ sqs ++ toString parts.length ++ sqs ++ ">" ++
      String.join parts ++ "</steps>"
  else ""

example :
    stepsXmlParts (.ofList ["1. Open app", "2. Tap login"]) "User is logged in" =
      [stepXmlElem 1 "Open app" "", stepXmlElem 2 "Tap login" "User is logged in"] := by decide

/-! ## JSON values, `json.loads` and `json.dumps` -/

/-- JSON values as the code consumes them.  Numbers are modelled as
integers: no float literal occurs in this development, and the parser
treats float syntax as failure. -/
inductive JVal where
  | str (s : String)
  | num (n : Int)
  | bool (b : Bool)
  | null
  | arr (xs : List JVal)
  | obj (kvs : List (String × JVal))

/-- The four JSON inter-token whitespace characters. -/
def isJsonWsChar (c : Char) : Bool :=
  c = ' ' || c = '\t' || c = '\n' || c = '\r'

/-- Skip JSON whitespace. -/
def skipWsL (l : List Char) : List Char :=
  l.dropWhile isJsonWsChar

/-- Hexadecimal digit value. -/
def hexVal? (c : Char) : Option Nat :=
  if '0' ≤ c ∧ c ≤ '9' then some (c.toNat - 48)
  else if 'a' ≤ c ∧ c ≤ 'f' then some (c.toNat - 87)
  else if 'A' ≤ c ∧ c ≤ 'F' then some (c.toNat - 55)
  else none

/-- Single-character JSON string escapes. -/
def escMap (c : Char) : Option Char :=
  if c = '"' then some '"'
  else if c = '\\' then some '\\'
  else if c = '/' then some '/'
  else if c = 'b' then some '\x08'
  else if c = 'f' then some '\x0c'
  else if c = 'n' then some '\n'
  else if c = 'r' then some '\r'
  else if c = 't' then some '\t'
  else none

/-- JSON string-literal body after the opening quote: content characters
and the remainder after the closing quote.  Raw control characters are
rejected, as in the library's strict mode. -/
def parseStrAux : Nat → List Char → Option (List Char × List Char)
  | 0, _ => none
  | fuel+1, l =>
    match l with
    | [] => none
    | c :: rest =>
      if c = '"' then some ([], rest)
      else if c = '\\' then
        match rest with
        | 'u' :: h1 :: h2 :: h3 :: h4 :: rest2 =>
          match hexVal? h1, hexVal? h2, hexVal? h3, hexVal? h4 with
          | some a, some b, some c2, some d =>
            (parseStrAux fuel rest2).map
              (fun p => (Char.ofNat (4096 * a + 256 * b + 16 * c2 + d) :: p.1, p.2))
          | _, _, _, _ => none
        | e :: rest2 =>
          match escMap e with
          | some ch => (parseStrAux fuel rest2).map (fun p => (ch :: p.1, p.2))
          | none => none
        | [] => none
      else if c.toNat < 0x20 then none
      else (parseStrAux fuel rest).map (fun p => (c :: p.1, p.2))

/-- JSON integer token: optional sign, digits without a redundant leading
zero, not followed by float syntax. -/
def parseIntTok (l : List Char) : Option (Int × List Char) :=
  let p := match l with
    | '-' :: t => (true, t)
    | _ => (false, l)
  let ds := p.2.takeWhile Char.isDigit
  if ds = [] then none
  else if ds.length > 1 ∧ ds.head? = some '0' then none
  else
    let rest := p.2.drop ds.length
    match rest with
    | '.' :: _ => none
    | 'e' :: _ => none
    | 'E' :: _ => none
    | _ =>
      let n : Nat := ds.foldl (fun acc c => 10 * acc + (c.toNat - 48)) 0
      some (if p.1 then -(n : Int) else (n : Int), rest)

mutual

/-- One JSON value and the remaining input. -/
def parseVal : Nat → List Char → Option (JVal × List Char)
  | 0, _ => none
  | fuel+1, l =>
    match skipWsL l with
    | [] => none
    | c :: rest =>
      if c = '"' then
        (parseStrAux (fuel + 1) rest).map (fun p => (JVal.str ⟨p.1⟩, p.2))
      else if c = '[' then
        match skipWsL rest with
        | ']' :: r2 => some (JVal.arr [], r2)
        | l2 => (parseArrItems fuel l2).map (fun p => (JVal.arr p.1, p.2))
      else if c = '\x7b' then
        match skipWsL rest with
        | '\x7d' :: r2 => some (JVal.obj [], r2)
        | l2 => (parseObjItems fuel l2).map (fun p => (JVal.obj p.1, p.2))
      else if c = 't' then
        if "rue".data.isPrefixOf rest then some (JVal.bool true, rest.drop 3) else none
      else if c = 'f' then
        if "alse".data.isPrefixOf rest then some (JVal.bool false, rest.drop 4) else none
      else if c = 'n' then
        if "ull".data.isPrefixOf rest then some (JVal.null, rest.drop 3) else none
      else
        (parseIntTok (c :: rest)).map (fun p => (JVal.num p.1, p.2))

/-- Non-empty comma-separated array items up to the closing bracket. -/
def parseArrItems : Nat → List Char → Option (List JVal × List Char)
  | 0, _ => none
  | fuel+1, l =>
    match parseVal fuel l with
    | none => none
    | some (v, r) =>
      match skipWsL r with
      | ',' :: r2 => (parseArrItems fuel r2).map (fun p => (v :: p.1, p.2))
      | ']' :: r2 => some ([v], r2)
      | _ => none

/-- Non-empty comma-separated object members up to the closing brace. -/
def parseObjItems : Nat → List Char → Option (List (String × JVal) × List Char)
  | 0, _ => none
  | fuel+1, l =>
    match skipWsL l with
    | '"' :: r1 =>
      match parseStrAux (fuel + 1) r1 with
      | none => none
      | some (k, r2) =>
        match skipWsL r2 with
        | ':' :: r3 =>
          match parseVal fuel r3 with
          | none => none
          | some (v, r4) =>
            match skipWsL r4 with
            | ',' :: r5 => (parseObjItems fuel r5).map (fun p => (((⟨k⟩ : String), v) :: p.1, p.2))
            | '\x7d' :: r5 => some ([((⟨k⟩ : String), v)], r5)
            | _ => none
        | _ => none
    | _ => none

end

/-- `json.loads`: parse one value with surrounding whitespace and nothing
else; any other input raises `JSONDecodeError`, modelled as `none`. -/
def jsonLoads (s : String) : Option JVal :=
  match parseVal (2 * s.data.length + 16) s.data with
  | some (v, r) => if skipWsL r = [] then some v else none
  | none => none

/-- Lowercase hexadecimal digit. -/
def hexDigitChar (n : Nat) : Char :=
  if n < 10 then Char.ofNat (48 + n) else Char.ofNat (87 + n)

/-- Four lowercase hexadecimal digits. -/
def hex4 (n : Nat) : List Char :=
  [hexDigitChar ((n / 4096) % 16), hexDigitChar ((n / 256) % 16),
   hexDigitChar ((n / 16) % 16), hexDigitChar (n % 16)]

/-- `json.dumps` string escaping with its default `ensure_ascii`: short
escapes for the common controls, `\uXXXX` (with surrogate pairs) for every
other character outside printable ASCII. -/
def escapeJsonChar (c : Char) : List Char :=
  if c = '"' then ['\\', '"']
  else if c = '\\' then ['\\', '\\']
  else if c = '\n' then ['\\', 'n']
  else if c = '\t' then ['\\', 't']
  else if c = '\r' then ['\\', 'r']
  else if c = '\x08' then ['\\', 'b']
  else if c = '\x0c' then ['\\', 'f']
  else if 0x20 ≤ c.toNat ∧ c.toNat ≤ 0x7e then [c]
  else if c.toNat < 0x10000 then '\\' :: 'u' :: hex4 c.toNat
  else
    let v := c.toNat - 0x10000
    ('\\' :: 'u' :: hex4 (0xd800 + v / 0x400)) ++ ('\\' :: 'u' :: hex4 (0xdc00 + v % 0x400))

/-- A serialized JSON string literal. -/
def dumpJStr (s : String) : String :=
  "\"" ++ (⟨s.data.flatMap escapeJsonChar⟩ : String) ++ "\""

mutual

/-- `json.dumps` with its default separators `", "` and `": "`, object
members in insertion order. -/
def jsonDumps : JVal → String
  | .str s => dumpJStr s
  | .num n => toString n
  | .bool b => if b then "true" else "false"
  | .null => "null"
  | .arr xs => "[" ++ dumpsArr xs ++ "]"
  | .obj kvs => "\x7b" ++ dumpsObj kvs ++ "\x7d"

/-- Comma-space separated array elements. -/
def dumpsArr : List JVal → String
  | [] => ""
  | [x] => jsonDumps x
  | x :: y :: rest => jsonDumps x ++ ", " ++ dumpsArr (y :: rest)

/-- Comma-space separated object members. -/
def dumpsObj : List (String × JVal) → String
  | [] => ""
  | [kv] => dumpJStr kv.1 ++ ": " ++ jsonDumps kv.2
  | kv :: y :: rest => dumpJStr kv.1 ++ ": " ++ jsonDumps kv.2 ++ ", " ++ dumpsObj (y :: rest)

end

example : jsonLoads "[]" = some (JVal.arr []) := rfl

example :
    jsonLoads " [\x7b\"id\": \"A\"\x7d, 3] " =
      some (JVal.arr [JVal.obj [("id", JVal.str "A")], JVal.num 3]) := rfl

example :
    jsonDumps (JVal.arr [JVal.obj [("id", JVal.str "A")]]) = "[\x7b\"id\": \"A\"\x7d]" := by decide

/-! ## Response cleaning and `_generate_cases_for_type` -/

/-- Markdown fence stripping (src/app.py lines 770-782): strip the text;
when it starts with three backticks, drop the first line, drop the last
line when that line strips to three backticks, rejoin on newlines and
strip again. -/
def stripCodeFence (s : String) : String :=
  let t := pyStrip s
  if "```".data.isPrefixOf t.data then
    let ls := (splitOnNl t.data).drop 1
    let ls2 :=
      match ls.getLast? with
      | some lastLine => if stripChars lastLine = "```".data then ls.dropLast else ls
      | none => ls
    pyStrip ⟨List.intercalate ['\n'] ls2⟩
  else t

/-- `re.search(r"\[.*\]", text, re.DOTALL)` (lines 784-793): the greedy
dot-all body makes the match, when one exists, run from the first `[` to
the last `]` of the text (provided that bracket comes later); with no
match the text is kept unchanged. -/
def extractArraySpan (s : String) : String :=
  let l := s.data
  match l.findIdx? (fun c => c = '['), l.reverse.findIdx? (fun c => c = ']') with
  | some i, some jr =>
    let j := l.length - 1 - jr
    if i < j then ⟨(l.drop i).take (j - i + 1)⟩ else s
  | _, _ => s

/-- `clean_json_text`: the response after stripping, fence removal and
array-span extraction, shared by both file variants and by the Negative
fallback path. -/
def cleanResponse (s : String) : String :=
  extractArraySpan (stripCodeFence s)

/-- The truncation-repair attempt of src/app.py (lines 874-889): when the
parse failed, cut the text at its last comma (`rfind(",") > 0`), append a
closing bracket, and accept the result only if it parses to a non-empty
list; any failure inside is swallowed. -/
def tryTruncRecover (clean : String) : Option (List JVal) :=
  match clean.data.reverse.findIdx? (fun c => c = ',') with
  | some kr =>
    let k := clean.data.length - 1 - kr
    if 1 ≤ k then
      match jsonLoads ⟨clean.data.take k ++ [']']⟩ with
      | some (.arr (x :: xs)) => some (x :: xs)
      | _ => none
    else none
  | none => none

/-- The Negative-category fallback block, identical in both file variants
(src/app.py lines 836-865, src/app_api.py lines 837-864): clean the second
call's text the same way and return its serialization when it parses to a
non-empty list, else fall through to the first call's cleaned text.
`fallbackResponse = none` models the extra call raising, which the code
catches locally. -/
def negFallbackResult (cleanFirst : String) (fallbackResponse : Option String) : String :=
  match fallbackResponse with
  | none => cleanFirst
  | some fr =>
    match jsonLoads (cleanResponse fr) with
    | some (.arr (x :: xs)) => jsonDumps (.arr (x :: xs))
    | _ => cleanFirst

/-- `_generate_cases_for_type` of src/app.py (lines 751-906), from the raw
provider text for one category to the returned JSON text, paired with the
total number of provider calls (the initial one, plus the Negative
fallback call when the code makes it). -/
def generateCasesForType (caseType : String) (responseText : String)
    (fallbackResponse : Option String) : String × Nat :=
  if pyStrip responseText = "" then ("[]", 1)
  else
    let clean := cleanResponse responseText
    match jsonLoads clean with
    | some (.arr []) =>
      if caseType = "Negative" then (negFallbackResult clean fallbackResponse, 2)
      else (clean, 1)
    | some (.arr (_ :: _)) => (clean, 1)
    | some _ => ("[]", 1)
    | none =>
      let cs := pyStrip clean
      if cs.data.head? = some '[' ∧ cs.data.getLast? ≠ some ']' then
        match tryTruncRecover clean with
        | some xs => (jsonDumps (.arr xs), 1)
        | none => ("[]", 1)
      else ("[]", 1)

/-- `_generate_cases_for_type` of src/app_api.py (lines 758-877): identical
to the src/app.py variant except that a JSON decode error returns `"[]"`
immediately, with no truncation repair. -/
def generateCasesForTypeApi (caseType : String) (responseText : String)
    (fallbackResponse : Option String) : String × Nat :=
  if pyStrip responseText = "" then ("[]", 1)
  else
    let clean := cleanResponse responseText
    match jsonLoads clean with
    | some (.arr []) =>
      if caseType = "Negative" then (negFallbackResult clean fallbackResponse, 2)
      else (clean, 1)
    | some (.arr (_ :: _)) => (clean, 1)
    | some _ => ("[]", 1)
    | none => ("[]", 1)

/-- The truncated provider text of the truncation-recovery property: a JSON
array cut mid-way through its second object. -/
def truncatedSample : String :=
  "[\x7b\"id\":\"TC-POS-1\",\"title\":\"[Positive] A\",\"priority\":\"High\",\"description\":\"1. x\",\"expectedResult\":\"y\"\x7d,\x7b\"id\":\"TC-POS-2\""

example : generateCasesForType "Positive" truncatedSample none = ("[]", 1) := by decide

example :
    generateCasesForType "Positive" "[\x7b\"id\":\"A\"\x7d,\x7b\"id\"" none =
      ("[\x7b\"id\": \"A\"\x7d]", 1) := by decide

example :
    generateCasesForTypeApi "Positive" "[\x7b\"id\":\"A\"\x7d,\x7b\"id\"" none =
      ("[]", 1) := by decide

/-! ## Provider-error classification and the Claude model-fallback loop -/

/-- `pat.isInfixOf hay`, Python's `in` on strings, on character lists. -/
def hasSub (hay pat : List Char) : Bool :=
  if pat.isPrefixOf hay then true
  else
    match hay with
    | [] => false
    | _ :: t => hasSub t pat

/-- Python `pat in hay` for strings. -/
def containsSub (pat hay : String) : Bool :=
  hasSub hay.data pat.data

/-- The error classes distinguished by the Claude fallback loop. -/
inductive ClaudeErrClass where
  | notFound
  | auth
  | rateLimit
  | contentPolicy
  | other
  deriving DecidableEq, Repr

/-- The per-model error classification of the Claude fallback loop
(src/app.py lines 260-276), an elif chain over the error message: the
model-not-found test first ("not_found_error" or "404" in the raw message,
"model" or "not found" in the lowercased one), then authentication
("authentication", "401", "403", "api_key"), then rate limit
("rate_limit", "429", "quota"), then content policy ("content_policy",
"safety"); anything else is other (best effort, try the next model). -/
def classifyClaudeError (msg : String) : ClaudeErrClass :=
  let low := lowerStr msg
  if containsSub "not_found_error" msg ∨ containsSub "404" msg ∨
      containsSub "model" low ∨ containsSub "not found" low then .notFound
  else if containsSub "authentication" low ∨ containsSub "401" msg ∨
      containsSub "403" msg ∨ containsSub "api_key" low then .auth
  else if containsSub "rate_limit" low ∨ containsSub "429" msg ∨
      containsSub "quota" low then .rateLimit
  else if containsSub "content_policy" low ∨ containsSub "safety" low then .contentPolicy
  else .other

/-- Outcome of one candidate model's API call: extracted non-empty text,
or the message of the exception raised (the empty-response and
invalid-structure raises land here too). -/
inductive CallOutcome where
  | success (text : String)
  | failure (msg : String)
  deriving DecidableEq, Repr

/-- Result of the whole Claude call: returned text or a raised
`ValueError` message. -/
inductive LoopResult where
  | ok (text : String)
  | error (msg : String)
  deriving DecidableEq, Repr

/-- The content-policy `ValueError` message, identical at the abort site
and in the exhausted-list report. -/
def cpViolationMsg (msg : String) : String :=
  "Claude API content policy violation: " ++ msg ++
    ". The prompt may contain content that violates Claude" ++ sqs ++ "s usage policies."

/-- The report built after every candidate model failed
(src/app.py lines 278-294), classifying the last error with its own chain. -/
def finalClaudeError : Option String → LoopResult
  | none => .error "Failed to get response from Claude API. No models responded successfully."
  | some msg =>
    let low := lowerStr msg
    if containsSub "not_found_error" low ∨ containsSub "404" msg ∨
        (containsSub "model" low ∧ containsSub "not found" low) then
      .error ("None of the Claude models are available. The models may have been deprecated or your API key doesn" ++
        sqs ++ "t have access to them. Last error: " ++ msg ++ ". Please check Anthropic" ++ sqs ++
        "s documentation for available models or contact support.")
    else if containsSub "authentication" low ∨ containsSub "401" msg ∨
        containsSub "403" msg ∨ containsSub "api_key" low then
      .error ("Claude API authentication failed: " ++ msg ++
        ". Please verify your CLAUDE_API_KEY is correct and has proper permissions.")
    else if containsSub "rate_limit" low ∨ containsSub "429" msg ∨ containsSub "quota" low then
      .error ("Claude API rate limit exceeded: " ++ msg ++
        ". Please wait a moment and try again, or check your API quota.")
    else if containsSub "content_policy" low ∨ containsSub "safety" low then
      .error (cpViolationMsg msg)
    else
      .error ("All Claude models failed. Last error: " ++ msg ++
        ". Please check your API key, network connection, and try again.")

/-- The Claude model-fallback loop of `call_ai_provider`
(src/app.py lines 207-294) over the per-candidate call outcomes, with the
last error seen: a success returns its text; a failure is classified,
aborting immediately on the auth / rate-limit / content-policy classes and
falling through to the next candidate otherwise; an exhausted candidate
list reports from the last error. -/
def claudeModelLoop : List CallOutcome → Option String → LoopResult
  | [], lastError => finalClaudeError lastError
  | .success t :: _, _ => .ok t
  | .failure msg :: rest, _ =>
    match classifyClaudeError msg with
    | .auth =>
      .error ("Claude API authentication error: " ++ msg ++ ". Please check your CLAUDE_API_KEY.")
    | .rateLimit =>
      .error ("Claude API rate limit exceeded: " ++ msg ++ ". Please try again later.")
    | .contentPolicy => .error (cpViolationMsg msg)
    | _ => claudeModelLoop rest (some msg)

/-! ## The streaming multi-category generation loop -/

/-- Outcome of one category's `_generate_cases_for_type` call as the
streaming loop observes it: returned text, a raised `ValueError`
(provider-classified errors), or any other exception. -/
inductive CatOutcome where
  | text (s : String)
  | valueError (msg : String)
  | otherError (msg : String)
  deriving DecidableEq, Repr

/-- Server-sent events of the streaming endpoint, with the payload fields
the loop computes (dynamic detail strings of the two parse-failure events
are abstracted to fixed summaries). -/
inductive Event where
  | progress (caseType : String) (cases : List JVal) (msg : String)
  | errorEv (caseType : String) (err : String) (msg : String) (critical : Bool)
  | done (msg : String)

/-- The abort test of the streaming loop (src/app.py line 1039): the
`ValueError` message, lowercased, contains "authentication", "rate limit"
or "quota". -/
def isCriticalStreamError (msg : String) : Bool :=
  let low := lowerStr msg
  containsSub "authentication" low || containsSub "rate limit" low || containsSub "quota" low

/-- The per-category streaming loop of `generate_test_cases_stream`
(src/app.py lines 963-1058) over the four categories' outcomes: parsed
lists stream progress, parse failures and generic exceptions stream an
error and continue with the next category, and a `ValueError` streams a
critical error and additionally ends the run with an early terminal event
when the critical-error test fires. -/
def generateLoop : List (String × CatOutcome) → List Event
  | [] => [.done "All test cases generated."]
  | (ct, .text s) :: rest =>
    (match jsonLoads s with
     | some (.arr []) => Event.progress ct [] ("No " ++ ct ++ " cases generated.")
     | some (.arr (x :: xs)) =>
       Event.progress ct (x :: xs)
         ("Generated " ++ toString (x :: xs).length ++ " " ++ ct ++ " cases.")
     | some _ =>
       Event.errorEv ct ("Response for " ++ ct ++ " is not a JSON array") "unexpected type" false
     | none =>
       Event.errorEv ct ("Failed to parse JSON response for " ++ ct ++ " cases") "json decode error" false)
      :: generateLoop rest
  | (ct, .valueError msg) :: rest =>
    Event.errorEv ct ("Failed to generate " ++ ct ++ " cases") msg true ::
      (if isCriticalStreamError msg then [.done "Generation stopped due to critical error."]
       else generateLoop rest)
  | (ct, .otherError msg) :: rest =>
    Event.errorEv ct ("Failed to generate " ++ ct ++ " cases") msg false :: generateLoop rest

example :
    claudeModelLoop [.failure "404 not_found_error", .success "hello"] none = .ok "hello" := rfl

example :
    classifyClaudeError "Error code: 429 - rate_limit_error" = .rateLimit := by decide

/-! ## Dedup-loop lemmas -/

/-- No case accepted by the dedup fold has a normalization key that was
already in the seen set the fold started from. -/
theorem mem_dedupAux_key_notin (tcs : List TestCase) :
    ∀ (seen : List String) (x : TestCase), x ∈ dedupAux tcs seen →
      normalize_title x.title ∉ seen := by
  induction tcs with
  | nil => intro seen x hx; simp [dedupAux] at hx
  | cons tc rest ih =>
    intro seen x hx
    simp only [dedupAux] at hx
    by_cases h : normalize_title (finalTitle tc) ≠ "" ∧ normalize_title (finalTitle tc) ∉ seen
    · rw [if_pos h] at hx
      rcases List.mem_cons.mp hx with h1 | h2
      · subst h1; simpa using h.2
      · have hk := ih _ _ h2
        intro hc; exact hk (List.mem_cons_of_mem _ hc)
    · rw [if_neg h] at hx
      exact ih _ _ hx

/-- The accepted cases of the dedup fold have pairwise distinct
normalization keys. -/
theorem dedupAux_pairwise (tcs : List TestCase) :
    ∀ seen : List String,
      (dedupAux tcs seen).Pairwise
        (fun a b => normalize_title a.title ≠ normalize_title b.title) := by
  induction tcs with
  | nil => intro seen; simp [dedupAux]
  | cons tc rest ih =>
    intro seen
    simp only [dedupAux]
    by_cases h : normalize_title (finalTitle tc) ≠ "" ∧ normalize_title (finalTitle tc) ∉ seen
    · rw [if_pos h]
      refine List.Pairwise.cons ?_ (ih _)
      intro b hb
      have hk := mem_dedupAux_key_notin rest _ b hb
      simp only []
      intro hc
      exact hk (by rw [← hc]; exact List.mem_cons_self _ _)
    · rw [if_neg h]; exact ih _

/-- Every accepted case is an input case with only its title rewritten to
the final title. -/
theorem dedupAux_mem_source (tcs : List TestCase) :
    ∀ (seen : List String) (x : TestCase), x ∈ dedupAux tcs seen →
      ∃ tc ∈ tcs, x = { tc with title := finalTitle tc } := by
  induction tcs with
  | nil => intro seen x hx; simp [dedupAux] at hx
  | cons tc rest ih =>
    intro seen x hx
    simp only [dedupAux] at hx
    by_cases h : normalize_title (finalTitle tc) ≠ "" ∧ normalize_title (finalTitle tc) ∉ seen
    · rw [if_pos h] at hx
      rcases List.mem_cons.mp hx with h1 | h2
      · exact ⟨tc, List.mem_cons_self _ _, h1⟩
      · obtain ⟨tc2, htc2, hx2⟩ := ih _ _ h2
        exact ⟨tc2, List.mem_cons_of_mem _ htc2, hx2⟩
    · rw [if_neg h] at hx
      obtain ⟨tc2, htc2, hx2⟩ := ih _ _ hx
      exact ⟨tc2, List.mem_cons_of_mem _ htc2, hx2⟩

/-- C1: in the upload deduplication step, no two accepted cases share a
normalization key (the normalized form of the rewritten final title); and
feeding the two cases titled "[Positive] User logs in" and "User logs in"
yields exactly one accepted case. -/
theorem upload_dedup_invariant :
    (∀ tcs : List TestCase,
      (uniqueTestCases tcs).Pairwise
        (fun a b => normalize_title a.title ≠ normalize_title b.title)) ∧
    (uniqueTestCases
      [⟨"TC-POS-1", "[Positive] User logs in", "High", .ofStr "", ""⟩,
       ⟨"TC-POS-2", "User logs in", "High", .ofStr "", ""⟩]).length = 1 := by
  refine ⟨fun tcs => dedupAux_pairwise tcs [], ?_⟩
  decide

set_option maxHeartbeats 1000000 in
/-- C10: every case accepted by the upload deduplication step keeps the
id, priority, description and expectedResult of its input record
unchanged; only the title field is rewritten (to the final title). -/
theorem upload_dedup_frame (tcs : List TestCase) (x : TestCase)
    (hx : x ∈ uniqueTestCases tcs) :
    ∃ tc ∈ tcs, x.id = tc.id ∧ x.priority = tc.priority ∧
      x.description = tc.description ∧ x.expectedResult = tc.expectedResult ∧
      x.title = finalTitle tc := by
  obtain ⟨tc, htc, rfl⟩ := dedupAux_mem_source tcs [] x hx
  exact ⟨tc, htc, rfl, rfl, rfl, rfl, rfl⟩

/-- Witness for C10 at a concrete one-case run. -/
theorem upload_dedup_frame_witness :
    (⟨"TC-POS-1", "Verify User logs in", "High", Descr.ofStr "1. x", "y"⟩ : TestCase) ∈
      uniqueTestCases [⟨"TC-POS-1", "[Positive] User logs in", "High", Descr.ofStr "1. x", "y"⟩] ∧
    ∃ tc ∈ [(⟨"TC-POS-1", "[Positive] User logs in", "High", Descr.ofStr "1. x", "y"⟩ : TestCase)],
      (⟨"TC-POS-1", "Verify User logs in", "High", Descr.ofStr "1. x", "y"⟩ : TestCase).id = tc.id ∧
      (⟨"TC-POS-1", "Verify User logs in", "High", Descr.ofStr "1. x", "y"⟩ : TestCase).priority = tc.priority ∧
      (⟨"TC-POS-1", "Verify User logs in", "High", Descr.ofStr "1. x", "y"⟩ : TestCase).description = tc.description ∧
      (⟨"TC-POS-1", "Verify User logs in", "High", Descr.ofStr "1. x", "y"⟩ : TestCase).expectedResult = tc.expectedResult ∧
      (⟨"TC-POS-1", "Verify User logs in", "High", Descr.ofStr "1. x", "y"⟩ : TestCase).title = finalTitle tc :=
  ⟨by decide, upload_dedup_frame _ _ (by decide)⟩

/-! ## Idempotence of title normalization on ASCII, and its failure beyond -/

/-- Mapping a function that fixes every element of a list is the identity. -/
theorem list_map_fix {α : Type} (f : α → α) :
    ∀ l : List α, (∀ a ∈ l, f a = a) → l.map f = l := by
  intro l
  induction l with
  | nil => intro _; rfl
  | cons a t ih =>
    intro h
    simp only [List.map_cons]
    rw [h a (List.mem_cons_self _ _), ih (fun b hb => h b (List.mem_cons_of_mem _ hb))]

/-- Flat-mapping a function that sends every element of a list to its
singleton is the identity. -/
theorem list_flatMap_singleton {α : Type} (f : α → List α) :
    ∀ l : List α, (∀ a ∈ l, f a = [a]) → l.flatMap f = l := by
  intro l
  induction l with
  | nil => intro _; rfl
  | cons a t ih =>
    intro h
    simp only [List.flatMap_cons]
    rw [h a (List.mem_cons_self _ _), ih (fun b hb => h b (List.mem_cons_of_mem _ hb))]
    rfl

/-- The per-character facts behind the ASCII idempotence argument, checked
by evaluation over the 128 ASCII code points: NFKD fixes ASCII characters,
and ASCII lowercasing stays in ASCII, preserves non-whitespace, and is
idempotent. -/
theorem ascii_char_facts : ∀ n : Nat, n < 128 →
    nfkdChar (Char.ofNat n) = [Char.ofNat n] ∧
    (asciiLower (Char.ofNat n)).toNat < 128 ∧
    (isPyWs (Char.ofNat n) = false → isPyWs (asciiLower (Char.ofNat n)) = false) ∧
    asciiLower (asciiLower (Char.ofNat n)) = asciiLower (Char.ofNat n) := by decide

/-- `normChars` is idempotent on ASCII character lists. -/
theorem normChars_idem (l : List Char) (h : ∀ c ∈ l, c.toNat < 128) :
    normChars (normChars l) = normChars l := by
  have h2 : ∀ b ∈ ((l.filter (fun c => !isPyWs c)).map asciiLower).filter
      (fun c => !pyPunct.contains c),
      b.toNat < 128 ∧ isPyWs b = false ∧ asciiLower b = b := by
    intro b hb
    have hb1 := (List.mem_filter.mp hb).1
    rcases List.mem_map.mp hb1 with ⟨a, ha, rfl⟩
    have haa : a.toNat < 128 := h a (List.mem_filter.mp ha).1
    have haw : isPyWs a = false := by
      have := (List.mem_filter.mp ha).2
      simpa using this
    have hf := ascii_char_facts a.toNat haa
    rw [Char.ofNat_toNat] at hf
    exact ⟨hf.2.1, hf.2.2.1 haw, hf.2.2.2⟩
  have h3 : (((l.filter (fun c => !isPyWs c)).map asciiLower).filter
      (fun c => !pyPunct.contains c)).flatMap nfkdChar =
      ((l.filter (fun c => !isPyWs c)).map asciiLower).filter
        (fun c => !pyPunct.contains c) := by
    apply list_flatMap_singleton
    intro a ha
    have hf := ascii_char_facts a.toNat (h2 a ha).1
    rw [Char.ofNat_toNat] at hf
    exact hf.1
  have hkey : normChars l = (((l.filter (fun c => !isPyWs c)).map asciiLower).filter
      (fun c => !pyPunct.contains c)).filter (fun c => !isCatC c) := by
    unfold normChars
    rw [h3]
  have hL : ∀ b ∈ normChars l, b.toNat < 128 ∧ isPyWs b = false ∧ asciiLower b = b ∧
      pyPunct.contains b = false ∧ isCatC b = false := by
    intro b hb
    rw [hkey] at hb
    have hbB := (List.mem_filter.mp hb).1
    have hcat : isCatC b = false := by simpa using (List.mem_filter.mp hb).2
    have hpun : pyPunct.contains b = false := by simpa using (List.mem_filter.mp hbB).2
    obtain ⟨ha, hw, hl2⟩ := h2 b hbB
    exact ⟨ha, hw, hl2, hpun, hcat⟩
  have e1 : (normChars l).filter (fun c => !isPyWs c) = normChars l :=
    List.filter_eq_self.mpr (fun a ha => by simpa using (hL a ha).2.1)
  have e2 : (normChars l).map asciiLower = normChars l :=
    list_map_fix _ _ (fun a ha => (hL a ha).2.2.1)
  have e3 : (normChars l).filter (fun c => !pyPunct.contains c) = normChars l :=
    List.filter_eq_self.mpr (fun a ha => by simpa using (hL a ha).2.2.2.1)
  have e4 : (normChars l).flatMap nfkdChar = normChars l :=
    list_flatMap_singleton _ _ (fun a ha => by
      have hf := ascii_char_facts a.toNat (hL a ha).1
      rw [Char.ofNat_toNat] at hf
      exact hf.1)
  have e5 : (normChars l).filter (fun c => !isCatC c) = normChars l :=
    List.filter_eq_self.mpr (fun a ha => by simpa using (hL a ha).2.2.2.2)
  show ((((normChars l |>.filter (fun c => !isPyWs c)).map asciiLower).filter
    (fun c => !pyPunct.contains c)).flatMap nfkdChar).filter (fun c => !isCatC c) = normChars l
  rw [e1, e2, e3, e4, e5]

/-- C3 counterexample: title normalization is not idempotent in general;
on the horizontal-ellipsis title NFKD produces dots that only the second
pass strips as punctuation. -/
theorem normalize_title_not_idempotent :
    ¬ normalize_title (normalize_title "…") = normalize_title "…" := by decide

/-- C3 (amended): `normalize_title` is idempotent on every title made of
ASCII characters. -/
theorem normalize_title_idempotent_ascii (s : String)
    (h : ∀ c ∈ s.data, c.toNat < 128) :
    normalize_title (normalize_title s) = normalize_title s := by
  show (⟨normChars (normChars s.data)⟩ : String) = ⟨normChars s.data⟩
  exact congrArg String.mk (normChars_idem s.data h)

/-- Witness for the amended C3 at a concrete ASCII title. -/
theorem normalize_title_idempotent_ascii_witness :
    (∀ c ∈ "Verify: user logs in (2.0)!".data, c.toNat < 128) ∧
    normalize_title (normalize_title "Verify: user logs in (2.0)!") =
      normalize_title "Verify: user logs in (2.0)!" :=
  ⟨by decide, normalize_title_idempotent_ascii "Verify: user logs in (2.0)!" (by decide)⟩

/-! ## Error-policy theorems -/

/-- C5: in the Claude model-fallback loop, a model-not-found class failure
and any other-class failure continue with the next candidate (recording
the message as last error), while auth, rate-limit and content-policy
class failures abort immediately with the corresponding error, whatever
candidates remain. -/
theorem claude_fallback_policy (msg : String) (rest : List CallOutcome)
    (lastE : Option String) :
    (classifyClaudeError msg = .notFound ∨ classifyClaudeError msg = .other →
      claudeModelLoop (.failure msg :: rest) lastE = claudeModelLoop rest (some msg)) ∧
    (classifyClaudeError msg = .auth →
      claudeModelLoop (.failure msg :: rest) lastE =
        .error ("Claude API authentication error: " ++ msg ++ ". Please check your CLAUDE_API_KEY.")) ∧
    (classifyClaudeError msg = .rateLimit →
      claudeModelLoop (.failure msg :: rest) lastE =
        .error ("Claude API rate limit exceeded: " ++ msg ++ ". Please try again later.")) ∧
    (classifyClaudeError msg = .contentPolicy →
      claudeModelLoop (.failure msg :: rest) lastE = .error (cpViolationMsg msg)) := by
  refine ⟨?_, ?_, ?_, ?_⟩
  · rintro (h | h) <;> simp [claudeModelLoop, h]
  · intro h; simp [claudeModelLoop, h]
  · intro h; simp [claudeModelLoop, h]
  · intro h; simp [claudeModelLoop, h]

/-- Witness for C5 on one message of each error class. -/
theorem claude_fallback_policy_witness :
    (claudeModelLoop [.failure "status 404: no such model", .success "ok"] none =
      claudeModelLoop [.success "ok"] (some "status 404: no such model")) ∧
    (claudeModelLoop [.failure "Error code: 401 unauthorized", .success "ok"] none =
      .error ("Claude API authentication error: Error code: 401 unauthorized. Please check your CLAUDE_API_KEY.")) ∧
    (claudeModelLoop [.failure "rate_limit exceeded", .success "ok"] none =
      .error ("Claude API rate limit exceeded: rate_limit exceeded. Please try again later.")) ∧
    (claudeModelLoop [.failure "blocked by safety filter", .success "ok"] none =
      .error (cpViolationMsg "blocked by safety filter")) ∧
    (claudeModelLoop [.failure "connection reset", .success "ok"] none =
      claudeModelLoop [.success "ok"] (some "connection reset")) :=
  ⟨(claude_fallback_policy _ _ _).1 (Or.inl (by decide)),
   (claude_fallback_policy _ _ _).2.1 (by decide),
   (claude_fallback_policy _ _ _).2.2.1 (by decide),
   (claude_fallback_policy _ _ _).2.2.2 (by decide),
   (claude_fallback_policy _ _ _).1 (Or.inr (by decide))⟩

/-- C4 counterexample: a content-policy class `ValueError` on the first
category does not stop the run: the next category is still processed and
the terminal event is the normal one, not the early abort. -/
theorem stream_loop_content_policy_continues :
    generateLoop
      [("Positive", .valueError (cpViolationMsg "blocked")),
       ("Negative", .text "[]")] =
      [.errorEv "Positive" "Failed to generate Positive cases" (cpViolationMsg "blocked") true,
       .progress "Negative" [] "No Negative cases generated.",
       .done "All test cases generated."] ∧
    ¬ generateLoop
        [("Positive", .valueError (cpViolationMsg "blocked")),
         ("Negative", .text "[]")] =
      [.errorEv "Positive" "Failed to generate Positive cases" (cpViolationMsg "blocked") true,
       .done "Generation stopped due to critical error."] := by
  exact ⟨rfl, fun h => absurd (congrArg List.length h) (by decide)⟩

/-- C4 (amended): a per-category `ValueError` whose message contains
"authentication", "rate limit" or "quota" (case-insensitively) emits its
error event followed immediately by the early terminal event, dropping the
remaining categories; every other `ValueError` (content-policy class
included) and every generic exception emits an error event and continues
with the next category. -/
theorem stream_loop_abort_policy (ct msg : String) (rest : List (String × CatOutcome)) :
    (isCriticalStreamError msg = true →
      generateLoop ((ct, .valueError msg) :: rest) =
        [.errorEv ct ("Failed to generate " ++ ct ++ " cases") msg true,
         .done "Generation stopped due to critical error."]) ∧
    (isCriticalStreamError msg = false →
      generateLoop ((ct, .valueError msg) :: rest) =
        .errorEv ct ("Failed to generate " ++ ct ++ " cases") msg true :: generateLoop rest) ∧
    (generateLoop ((ct, .otherError msg) :: rest) =
      .errorEv ct ("Failed to generate " ++ ct ++ " cases") msg false :: generateLoop rest) := by
  refine ⟨?_, ?_, ?_⟩
  · intro h; simp [generateLoop, h]
  · intro h; simp [generateLoop, h]
  · simp [generateLoop]

/-- Witness for the amended C4 at one critical and one non-critical
message. -/
theorem stream_loop_abort_policy_witness :
    (generateLoop [("Positive", .valueError "Claude API rate limit exceeded: 429"),
        ("Negative", .text "[]")] =
      [.errorEv "Positive" "Failed to generate Positive cases"
          "Claude API rate limit exceeded: 429" true,
       .done "Generation stopped due to critical error."]) ∧
    (generateLoop [("Positive", .valueError "boom"), ("Negative", .text "[]")] =
      .errorEv "Positive" "Failed to generate Positive cases" "boom" true ::
        generateLoop [("Negative", .text "[]")]) :=
  ⟨(stream_loop_abort_policy _ _ _).1 (by decide),
   (stream_loop_abort_policy _ _ _).2.1 (by decide)⟩

/-! ## Normalizer theorems -/

/-- C6: for the Negative category, a first response that parses (after
cleaning) to an empty array triggers exactly one additional provider call,
and when the fallback response parses (same cleaning) to a non-empty array
the function returns exactly that array's serialization; for every other
category the call count is always one. -/
theorem negative_empty_fallback (rt fb : String) (ct : String) (x : JVal) (xs : List JVal)
    (hne : pyStrip rt ≠ "")
    (h1 : jsonLoads (cleanResponse rt) = some (JVal.arr []))
    (h3 : jsonLoads (cleanResponse fb) = some (JVal.arr (x :: xs)))
    (hct : ct ≠ "Negative") :
    generateCasesForType "Negative" rt (some fb) = (jsonDumps (JVal.arr (x :: xs)), 2) ∧
    (∀ fb2 : Option String, (generateCasesForType "Negative" rt fb2).2 = 2) ∧
    (∀ rt2 fb2, (generateCasesForType ct rt2 fb2).2 = 1) := by
  refine ⟨?_, ?_, ?_⟩
  · simp only [generateCasesForType]
    rw [if_neg hne, h1]
    show (negFallbackResult (cleanResponse rt) (some fb), 2) = _
    simp only [negFallbackResult]
    rw [h3]
  · intro fb2
    simp only [generateCasesForType]
    rw [if_neg hne, h1]
    rfl
  · intro rt2 fb2
    simp only [generateCasesForType]
    repeat' split
    all_goals simp_all

/-- Witness for C6 at concrete responses. -/
theorem negative_empty_fallback_witness :
    generateCasesForType "Negative" "[]" (some "[\x7b\"id\": \"TC-NEG-1\"\x7d]") =
      ("[\x7b\"id\": \"TC-NEG-1\"\x7d]", 2) ∧
    (generateCasesForType "Negative" "[]" none).2 = 2 ∧
    (generateCasesForType "Positive" "[]" none).2 = 1 := by
  have h := negative_empty_fallback "[]" "[\x7b\"id\": \"TC-NEG-1\"\x7d]" "Positive"
    (JVal.obj [("id", JVal.str "TC-NEG-1")]) [] (by decide) rfl rfl (by decide)
  exact ⟨h.1, h.2.1 none, h.2.2 "[]" none⟩

/-- C9 counterexample: on the truncated array text
`[{"id":"A"},{"id"` (no closing bracket anywhere) the src/app.py variant
repairs the truncation and returns the first object while the
src/app_api.py variant returns `"[]"`. -/
theorem generate_variants_differ :
    generateCasesForType "Positive" "[\x7b\"id\":\"A\"\x7d,\x7b\"id\"" none =
      ("[\x7b\"id\": \"A\"\x7d]", 1) ∧
    generateCasesForTypeApi "Positive" "[\x7b\"id\":\"A\"\x7d,\x7b\"id\"" none = ("[]", 1) ∧
    generateCasesForType "Positive" "[\x7b\"id\":\"A\"\x7d,\x7b\"id\"" none ≠
      generateCasesForTypeApi "Positive" "[\x7b\"id\":\"A\"\x7d,\x7b\"id\"" none := by
  refine ⟨by decide, by decide, by decide⟩

/-- C9 (amended): the two `_generate_cases_for_type` variants agree on
every response whose cleaned text parses as JSON; when the cleaned text
does not parse, the src/app_api.py variant returns `("[]", 1)` while the
src/app.py variant may instead return a truncation-repaired non-empty
array. -/
theorem generate_variants_agree_on_parsed (ct rt : String) (fb : Option String) :
    (∀ v, jsonLoads (cleanResponse rt) = some v →
      generateCasesForType ct rt fb = generateCasesForTypeApi ct rt fb) ∧
    (jsonLoads (cleanResponse rt) = none →
      generateCasesForTypeApi ct rt fb = ("[]", 1)) := by
  constructor
  · intro v hv
    simp only [generateCasesForType, generateCasesForTypeApi]
    by_cases he : pyStrip rt = ""
    · rw [if_pos he, if_pos he]
    · rw [if_neg he, if_neg he, hv]
      cases v with
      | arr xs => cases xs <;> rfl
      | str s => rfl
      | num n => rfl
      | bool b => rfl
      | null => rfl
      | obj kvs => rfl
  · intro hv
    simp only [generateCasesForTypeApi]
    by_cases he : pyStrip rt = ""
    · rw [if_pos he]
    · rw [if_neg he, hv]

/-- Witness for the amended C9 at one parsing and one non-parsing text. -/
theorem generate_variants_agree_on_parsed_witness :
    jsonLoads (cleanResponse "[\"a\"]") = some (JVal.arr [JVal.str "a"]) ∧
    generateCasesForType "Positive" "[\"a\"]" none =
      generateCasesForTypeApi "Positive" "[\"a\"]" none ∧
    jsonLoads (cleanResponse "\x7b") = none ∧
    generateCasesForTypeApi "Positive" "\x7b" none = ("[]", 1) :=
  ⟨rfl,
   (generate_variants_agree_on_parsed "Positive" "[\"a\"]" none).1 _ rfl,
   rfl,
   (generate_variants_agree_on_parsed "Positive" "\x7b" none).2 rfl⟩

/-! ## Projection and title-derivation theorems -/

/-- A "Test for: " title is never the empty string. -/
theorem test_for_ne_empty (x : String) : "Test for: " ++ x ≠ "" := fun h => by
  have h2 := congrArg String.length h
  rw [String.length_append, show ("Test for: ").length = 10 from rfl,
    show ("" : String).length = 0 from rfl] at h2
  omega

/-- C7: with a non-empty effective step list and a non-empty expected
result, the projected parts have one element per step; the element at
index i carries the sequential 1-based id i+1, the numeral-stripped,
HTML-escaped step text as its action, and the HTML-escaped expected result
as its expected value exactly when it is the last element (all earlier
elements carry the empty expected value). -/
theorem steps_projection (d : Descr) (er : String)
    (hs : effectiveSteps d ≠ []) (he : er ≠ "") :
    (stepsXmlParts d er).length = (effectiveSteps d).length ∧
    ∀ i s, (effectiveSteps d)[i]? = some s →
      (stepsXmlParts d er)[i]? =
        some (stepXmlElem (i + 1) (htmlEscape (pyStrip (stripNum s)))
          (if i + 1 = (effectiveSteps d).length then htmlEscape er else "")) := by
  constructor
  · simp [stepsXmlParts, if_neg hs]
  · intro i s hi
    simp only [stepsXmlParts, if_neg hs]
    rw [List.getElem?_map, List.getElem?_enum, hi]
    simp [he]

/-- Witness for C7 at the two-step example: the expected result appears
only on the second (last) step element. -/
theorem steps_projection_witness :
    effectiveSteps (.ofList ["1. Open app", "2. Tap login"]) ≠ [] ∧
    ("User is logged in" : String) ≠ "" ∧
    (stepsXmlParts (.ofList ["1. Open app", "2. Tap login"]) "User is logged in").length = 2 ∧
    (stepsXmlParts (.ofList ["1. Open app", "2. Tap login"]) "User is logged in")[0]? =
      some (stepXmlElem 1 "Open app" "") ∧
    (stepsXmlParts (.ofList ["1. Open app", "2. Tap login"]) "User is logged in")[1]? =
      some (stepXmlElem 2 "Tap login" "User is logged in") := by
  have h := steps_projection (.ofList ["1. Open app", "2. Tap login"]) "User is logged in"
    (by decide) (by decide)
  refine ⟨by decide, by decide, ?_, ?_, ?_⟩
  · rw [h.1]; decide
  · rw [h.2 0 "1. Open app" (by decide)]; decide
  · rw [h.2 1 "2. Tap login" (by decide)]; decide

/-- C8: when the provider title is blank after the category tag is
stripped, the derived title is the first applicable of: (a) the first
non-blank entry of a list-typed description, numeral-stripped; (b) the
first line of a non-blank string-typed description, numeral-stripped;
(c) "Test for: " plus the stripped expected result when non-blank;
(d) the literal "Untitled Test Case". -/
theorem derived_title_cascade (tc : TestCase)
    (hb : stripTypeTag (pyStrip tc.title) = "") :
    (∀ ss s, tc.description = .ofList ss →
      ss.find? (fun x => pyStrip x ≠ "") = some s →
      pyStrip (stripNum (pyStrip s)) ≠ "" →
      titleNoTag tc = pyStrip (stripNum (pyStrip s))) ∧
    (∀ s, tc.description = .ofStr s → pyStrip s ≠ "" →
      pyStrip (stripNum (pyStrip (firstLineOf (pyStrip s)))) ≠ "" →
      titleNoTag tc = pyStrip (stripNum (pyStrip (firstLineOf (pyStrip s))))) ∧
    (derivedBase tc.description = "" → pyStrip tc.expectedResult ≠ "" →
      titleNoTag tc = "Test for: " ++ pyStrip tc.expectedResult) ∧
    (derivedBase tc.description = "" → pyStrip tc.expectedResult = "" →
      titleNoTag tc = "Untitled Test Case") := by
  have hshape : titleNoTag tc = deriveFallbackTitle tc.description tc.expectedResult := by
    simp [titleNoTag, hb]
  refine ⟨?_, ?_, ?_, ?_⟩
  · intro ss s hd hf hnb
    have hbase : derivedBase tc.description = pyStrip (stripNum (pyStrip s)) := by
      rw [hd]
      simp only [derivedBase]
      rw [hf]
    rw [hshape]
    simp only [deriveFallbackTitle, hbase]
    rw [if_neg (show ¬(pyStrip (stripNum (pyStrip s)) = "" ∧
      pyStrip tc.expectedResult ≠ "") from fun h => hnb h.1)]
    rw [if_neg hnb]
  · intro s hd hns hnb
    have hbase : derivedBase tc.description =
        pyStrip (stripNum (pyStrip (firstLineOf (pyStrip s)))) := by
      rw [hd]
      simp only [derivedBase]
      rw [if_pos hns]
    rw [hshape]
    simp only [deriveFallbackTitle, hbase]
    rw [if_neg (show ¬(pyStrip (stripNum (pyStrip (firstLineOf (pyStrip s)))) = "" ∧
      pyStrip tc.expectedResult ≠ "") from fun h => hnb h.1)]
    rw [if_neg hnb]
  · intro hbase her
    rw [hshape]
    simp only [deriveFallbackTitle, hbase]
    rw [if_pos (show True ∧ pyStrip tc.expectedResult ≠ "" from ⟨trivial, her⟩)]
    rw [if_neg (test_for_ne_empty (pyStrip tc.expectedResult))]
  · intro hbase her
    rw [hshape]
    simp only [deriveFallbackTitle, hbase]
    rw [if_neg (show ¬(True ∧ pyStrip tc.expectedResult ≠ "") from fun h => h.2 her)]
    rw [if_pos rfl]

/-- Witness for C8 on concrete blank-title cases, one per cascade arm. -/
theorem derived_title_cascade_witness :
    titleNoTag ⟨"1", "[Positive]", "High", .ofList ["", "1. Open app"], "y"⟩ = "Open app" ∧
    titleNoTag ⟨"2", " ", "High", .ofStr "2. Tap login\nmore", "y"⟩ = "Tap login" ∧
    titleNoTag ⟨"3", "", "High", .ofList [], "ok shown "⟩ = "Test for: ok shown" ∧
    titleNoTag ⟨"4", "", "High", .ofStr " ", ""⟩ = "Untitled Test Case" := by
  refine ⟨?_, ?_, ?_, ?_⟩
  · rw [(derived_title_cascade _ (by decide)).1 ["", "1. Open app"] "1. Open app" rfl
      (by decide) (by decide)]
    decide
  · rw [(derived_title_cascade _ (by decide)).2.1 "2. Tap login\nmore" rfl
      (by decide) (by decide)]
    decide
  · rw [(derived_title_cascade _ (by decide)).2.2.1 (by decide) (by decide)]
    decide
  · rw [(derived_title_cascade _ (by decide)).2.2.2 (by decide) (by decide)]

/-! ## Truncation-recovery behaviour on the documented sample -/

/-- C2: on the truncated sample array (cut mid-way through its second
object) the src/app.py normalizer returns "[]" after a single call instead
of recovering the first complete object: the greedy array extraction cuts
the cleaned text at the bracket inside "[Positive]", the cut text then
ends with "]", so the truncation-repair branch never runs.  The final
conjunct records that the first complete object on its own is valid JSON,
which is what the recovery was meant to return. -/
theorem truncation_recovery_fails_on_sample :
    generateCasesForType "Positive" truncatedSample none = ("[]", 1) ∧
    cleanResponse truncatedSample = "[\x7b\"id\":\"TC-POS-1\",\"title\":\"[Positive]" ∧
    jsonLoads "[\x7b\"id\":\"TC-POS-1\",\"title\":\"[Positive] A\",\"priority\":\"High\",\"description\":\"1. x\",\"expectedResult\":\"y\"\x7d]" =
      some (JVal.arr [JVal.obj [("id", JVal.str "TC-POS-1"), ("title", JVal.str "[Positive] A"),
        ("priority", JVal.str "High"), ("description", JVal.str "1. x"),
        ("expectedResult", JVal.str "y")]]) :=
  ⟨by decide, by decide, rfl⟩
